import Mathlib

/-!
Verification development for the telescope performance-report pipeline.

The TypeScript sources are embedded shallowly:
* JavaScript numbers are modelled as exact rationals (`ℚ`); the claims under
  study are algebraic identities and sign conditions, which floating point
  evaluates exactly on the small integer inputs involved.
* A field that the code defends with `x || 0` (absent / `undefined` / `0`
  collapse to `0`) is modelled as `Option ℚ`, read through `Option.getD 0`;
  since `0 || 0` is `0`, this is faithful on numbers.
* Strings use `""` where the code treats the empty string as falsy.
* Fallible parsing is modelled with `Option` results.
-/

namespace Telescope

/-- Navigation timing record (`Partial<NavigationTiming>` as consumed by
`calculateTimingPhases`): every field the function reads, each optional with
`|| 0` fallback at the use site. -/
structure NavigationTiming where
  navigationStart : Option ℚ
  domainLookupStart : Option ℚ
  domainLookupEnd : Option ℚ
  connectStart : Option ℚ
  connectEnd : Option ℚ
  secureConnectionStart : Option ℚ
  requestStart : Option ℚ
  responseStart : Option ℚ
  responseEnd : Option ℚ
  domLoading : Option ℚ
  domInteractive : Option ℚ
  domContentLoadedEventEnd : Option ℚ
  domComplete : Option ℚ
  deriving DecidableEq, Repr

/-- Page-level phase durations and percentages (`interface TimingPhases`). -/
structure TimingPhases where
  dns_time : ℚ
  tcp_time : ℚ
  ssl_time : ℚ
  request_time : ℚ
  response_time : ℚ
  dom_processing : ℚ
  dom_content_loaded : ℚ
  complete_load : ℚ
  total_time : ℚ
  dns_pct : ℚ
  tcp_pct : ℚ
  ssl_pct : ℚ
  request_pct : ℚ
  response_pct : ℚ
  processing_pct : ℚ
  dom_content_pct : ℚ
  complete_pct : ℚ
  deriving DecidableEq, Repr

/-- `calculateTimingPhases` from the report generator: per-field `|| 0`
fallback, `laterBoundary - earlierBoundary` durations, and each percentage
guarded by `totalTime > 0`. -/
def calculateTimingPhases (navTiming : NavigationTiming) : TimingPhases :=
  let dnsTime := navTiming.domainLookupEnd.getD 0 - navTiming.domainLookupStart.getD 0
  let tcpTime := navTiming.connectEnd.getD 0 - navTiming.connectStart.getD 0
  let sslTime := navTiming.connectEnd.getD 0 - navTiming.secureConnectionStart.getD 0
  let requestTime := navTiming.responseStart.getD 0 - navTiming.requestStart.getD 0
  let responseTime := navTiming.responseEnd.getD 0 - navTiming.responseStart.getD 0
  let domProcessing := navTiming.domInteractive.getD 0 - navTiming.domLoading.getD 0
  let domContentLoaded :=
    navTiming.domContentLoadedEventEnd.getD 0 - navTiming.domInteractive.getD 0
  let completeLoad :=
    navTiming.domComplete.getD 0 - navTiming.domContentLoadedEventEnd.getD 0
  let totalTime := navTiming.domComplete.getD 0 - navTiming.navigationStart.getD 0
  { dns_time := dnsTime
    tcp_time := tcpTime
    ssl_time := sslTime
    request_time := requestTime
    response_time := responseTime
    dom_processing := domProcessing
    dom_content_loaded := domContentLoaded
    complete_load := completeLoad
    total_time := totalTime
    dns_pct := if totalTime > 0 then dnsTime / totalTime * 100 else 0
    tcp_pct := if totalTime > 0 then tcpTime / totalTime * 100 else 0
    ssl_pct := if totalTime > 0 then sslTime / totalTime * 100 else 0
    request_pct := if totalTime > 0 then requestTime / totalTime * 100 else 0
    response_pct := if totalTime > 0 then responseTime / totalTime * 100 else 0
    processing_pct := if totalTime > 0 then domProcessing / totalTime * 100 else 0
    dom_content_pct := if totalTime > 0 then domContentLoaded / totalTime * 100 else 0
    complete_pct := if totalTime > 0 then completeLoad / totalTime * 100 else 0 }

/-- `RequestTiming` (types module): Playwright request timing; all fields are
plain numbers in the source. -/
structure RequestTiming where
  startTime : ℚ
  domainLookupStart : ℚ
  domainLookupEnd : ℚ
  connectStart : ℚ
  secureConnectionStart : ℚ
  connectEnd : ℚ
  requestStart : ℚ
  responseStart : ℚ
  responseEnd : ℚ
  deriving DecidableEq, Repr

/-- `RequestData` (types module): a live timing sample captured on
`requestfinished`. `rawTimings?: boolean` is optional and never assigned in
the repository, so `undefined` (modelled `false`) is its only runtime value;
it is kept because `mergeEntries` reads it. -/
structure RequestData where
  url : String
  timing : RequestTiming
  rawTimings : Bool
  deriving DecidableEq, Repr

/-- `HarEntry` (types module), flattened: `request.url` / `request.method` /
`response.status` / `response._transferSize` / `response.content.size` /
`response.content.mimeType` become top-level fields, and the private
underscore-prefixed boundary fields lose the leading underscore (Lean
convention).  `startedDateTime` is the epoch-millisecond value of the parsed
date, `Option` for the empty/absent string. -/
structure HarEntry where
  request_url : String
  method : String
  status : ℚ
  transferSize : Option ℚ
  content_size : ℚ
  mimeType : String
  startedDateTime : Option ℚ
  time : ℚ
  dns_start : Option ℚ
  dns_end : Option ℚ
  connect_start : Option ℚ
  connect_end : Option ℚ
  secure_start : Option ℚ
  secure_end : Option ℚ
  request_start : Option ℚ
  request_end : Option ℚ
  response_start : Option ℚ
  response_end : Option ℚ
  is_lcp : Bool
  deriving DecidableEq, Repr

/-- Body of the `indexToUpdate !== -1` branch of `TestRunner.mergeEntries`:
the enriched entry spread from the matched archive entry.  JavaScript
truthiness of `request.timing.secureConnectionStart` is `≠ 0`. -/
def mergeUpdate (e : HarEntry) (request : RequestData) (lcpURL : Option String) :
    HarEntry :=
  let connectEnd :=
    if request.timing.secureConnectionStart > 0 then
      request.timing.secureConnectionStart
    else request.timing.connectEnd
  let secureStart :=
    if request.timing.secureConnectionStart ≠ 0 then
      request.timing.secureConnectionStart
    else -1
  let secureEnd :=
    if request.timing.secureConnectionStart ≠ 0 then
      request.timing.connectEnd
    else -1
  { e with
    dns_start := some request.timing.domainLookupStart
    dns_end := some request.timing.domainLookupEnd
    connect_start := some request.timing.connectStart
    connect_end := some connectEnd
    secure_start := some secureStart
    secure_end := some secureEnd
    request_start := some request.timing.requestStart
    request_end := some request.timing.responseStart
    response_start := some request.timing.responseStart
    response_end := some request.timing.responseEnd
    is_lcp := if lcpURL = some request.url then true else e.is_lcp }

/-- The `findIndex` predicate of `TestRunner.mergeEntries`:
`object.request.url === request.url && !request.rawTimings`.  Note the second
conjunct tests the SAMPLE (`request`), not the candidate archive entry
(`object`), so it is constant during the scan. -/
def mergePred (request : RequestData) (object : HarEntry) : Bool :=
  object.request_url == request.url && !request.rawTimings

/-- One iteration of the `for (const request of this.requests)` loop of
`TestRunner.mergeEntries`: `findIndex`, then `splice(index, 1, updated)`. -/
def mergeStep (lcpURL : Option String) (harEntries : List HarEntry)
    (request : RequestData) : List HarEntry :=
  match harEntries.findIdx? (mergePred request) with
  | none => harEntries
  | some i =>
      match harEntries[i]? with
      | none => harEntries
      | some e => harEntries.set i (mergeUpdate e request lcpURL)

/-- `TestRunner.mergeEntries`: fold the live samples over the archive entry
list. -/
def mergeEntries (requests : List RequestData) (harEntries : List HarEntry)
    (lcpURL : Option String) : List HarEntry :=
  requests.foldl (mergeStep lcpURL) harEntries

/-- JavaScript `String.prototype.includes`: `sub` occurs in `s` (for nonempty
`sub`, `splitOn` yields more than one piece exactly when it occurs). -/
def strContains (s sub : String) : Bool :=
  (s.splitOn sub).length != 1

/-- `getResourceTypeFromMime`: classification of the MIME string; the empty
string models the falsy `!mimeType` guard. -/
def getResourceTypeFromMime (mimeType : String) : String :=
  if mimeType == "" then "other"
  else
    let mime := mimeType.toLower
    if strContains mime ("html") then "document"
    else if strContains mime ("css") || strContains mime ("stylesheet") then "stylesheet"
    else if strContains mime ("javascript") || strContains mime ("ecmascript") then "script"
    else if strContains mime ("image") || strContains mime ("svg") then "image"
    else if strContains mime ("font") || strContains mime ("woff") || strContains mime ("ttf") then "font"
    else if strContains mime ("json") then "json"
    else if strContains mime ("video") then "media"
    else "other"

/-- The per-request timing block of `NetworkRequest` (report generator). -/
structure RequestTimings where
  dns_time : ℚ
  connect_time : ℚ
  ssl_time : ℚ
  send_time : ℚ
  wait_time : ℚ
  receive_time : ℚ
  total_time : ℚ
  dns_pct : ℚ
  connect_pct : ℚ
  ssl_pct : ℚ
  send_pct : ℚ
  wait_pct : ℚ
  receive_pct : ℚ
  response_start : ℚ
  response_end : ℚ
  deriving DecidableEq, Repr

/-- `NetworkRequest` (report generator): the canonical record `parseHarFile`
produces for each archive entry. -/
structure NetworkRequest where
  url : String
  method : String
  status : ℚ
  size : ℚ
  type : String
  start_time : ℚ
  duration : ℚ
  mime_type : String
  timings : RequestTimings
  deriving DecidableEq, Repr

/-- The boundary/duration/percentage computation of the `parseHarFile` entry
loop: `entry._X || 0` fallbacks, six phase durations, `total =
responseEnd - requestStart`, and the percentage guards (`total > 0 && d > 0`
for dns/connect/ssl, `total > 0` alone for send/wait/receive). -/
def harEntryTimings (entry : HarEntry) : RequestTimings :=
  let dnsStart := entry.dns_start.getD 0
  let dnsEnd := entry.dns_end.getD 0
  let connectStart := entry.connect_start.getD 0
  let connectEnd := entry.connect_end.getD 0
  let secureStart := entry.secure_start.getD 0
  let secureEnd := entry.secure_end.getD 0
  let requestStart := entry.request_start.getD 0
  let requestEnd := entry.request_end.getD 0
  let responseStart := entry.response_start.getD 0
  let responseEnd := entry.response_end.getD 0
  let dns := dnsEnd - dnsStart
  let connect := connectEnd - connectStart
  let ssl := secureEnd - secureStart
  let send := requestEnd - requestStart
  let wait := responseStart - requestEnd
  let receive := responseEnd - responseStart
  let total := responseEnd - requestStart
  { dns_time := dns
    connect_time := connect
    ssl_time := ssl
    send_time := send
    wait_time := wait
    receive_time := receive
    total_time := total
    dns_pct := if total > 0 ∧ dns > 0 then dns / total * 100 else 0
    connect_pct := if total > 0 ∧ connect > 0 then connect / total * 100 else 0
    ssl_pct := if total > 0 ∧ ssl > 0 then ssl / total * 100 else 0
    send_pct := if total > 0 then send / total * 100 else 0
    wait_pct := if total > 0 then wait / total * 100 else 0
    receive_pct := if total > 0 then receive / total * 100 else 0
    response_start := responseStart
    response_end := responseEnd }

/-- The rest of the `parseHarFile` entry loop: defaults for url/method/status,
transfer-size preference, MIME classification, and the relative start offset
against the first entry's wall-clock start. -/
def harEntryToRequest (pageStart : Option ℚ) (entry : HarEntry) : NetworkRequest :=
  let transfer := entry.transferSize.getD 0
  let size := if transfer = 0 then entry.content_size else transfer
  let relativeStart :=
    match entry.startedDateTime, pageStart with
    | some started, some ps => started - ps
    | _, _ => 0
  { url := entry.request_url
    method := if entry.method == "" then "GET" else entry.method
    status := entry.status
    size := size
    type := getResourceTypeFromMime entry.mimeType
    start_time := relativeStart
    duration := entry.time
    mime_type := entry.mimeType
    timings := harEntryTimings entry }

/-- The state of the archive file as `parseHarFile` observes it: missing on
disk, present but not valid JSON, or parsed with an optional `log` object
holding an optional `entries` array. -/
inductive HarFileState where
  | absent
  | unparsable
  | parsed (log : Option (Option (List HarEntry)))
  deriving DecidableEq, Repr

/-- `parseHarFile`: `null` when the file is absent (`existsSync` guard), when
JSON parsing throws (the `catch` returns `null`), or when the effective entry
list (`harData.log || {}`, `log.entries || []`) is empty; otherwise one
`NetworkRequest` per entry, with `t = 0` anchored at the first entry's
`startedDateTime` when present. -/
def parseHarFile : HarFileState → Option (List NetworkRequest)
  | .absent => none
  | .unparsable => none
  | .parsed log =>
      let entries := (log.getD none).getD []
      if entries.isEmpty then none
      else
        let pageStart := entries.head?.bind (·.startedDateTime)
        some (entries.map (harEntryToRequest pageStart))

/-- The byte-size branch of the network-waterfall row builder in
`generateHtml`: value scaled by the chosen divisor plus the unit suffix.  The
source is a single `if / else if` chain tested in this exact order. -/
def sizeBranch (size : ℚ) : ℚ × String :=
  if size > 1024 then (size / 1024, " KB")
  else if size > 1048576 then (size / 1048576, " MB")
  else if size > 1073741824 then (size / 1073741824, " GB")
  else (size, " B")

/-- `formatNumber` applied to the branch value: `Math.floor` before the
locale rendering, paired with the unit suffix chosen by `sizeBranch`. -/
def formatSizeParts (size : ℚ) : ℤ × String :=
  (⌊(sizeBranch size).1⌋, (sizeBranch size).2)

/-- The TTFB value `generateHtml` places in the report model:
`let ttfb = timing.response_time`. -/
def reportTTFB (navTiming : NavigationTiming) : ℚ :=
  (calculateTimingPhases navTiming).response_time

/-- The `_TTFB` value `TestRunner.fillOutHar` writes into the archive's page
timings: `navTiming.responseStart - navTiming.navigationStart` (the typed
`Metrics.navigationTiming` has both fields present). -/
def harTTFB (navTiming : NavigationTiming) : ℚ :=
  navTiming.responseStart.getD 0 - navTiming.navigationStart.getD 0

/-- `LCPEvent` (types module), restricted to the fields the pipeline reads:
`startTime` and `url` (`""` models a falsy/absent url). -/
structure LCPEvent where
  startTime : ℚ
  url : String
  deriving DecidableEq, Repr

/-- The LCP url selection of `TestRunner.fillOutHar`: the LAST element of the
captured event array, its `url` if truthy. -/
def lcpFlagURL (lcpEvents : List LCPEvent) : Option String :=
  match lcpEvents.getLast? with
  | none => none
  | some lcp => if lcp.url == "" then none else some lcp.url

/-- The `_LCP` page timing `TestRunner.fillOutHar` records: the last event's
`startTime` (when any event exists). -/
def harLcpTime (lcpEvents : List LCPEvent) : Option ℚ :=
  (lcpEvents.getLast?).map (·.startTime)

/-- The LCP metric `generateHtml` shows in the report:
`(metrics.largestContentfulPaint || [{}])[0] || {}` then `startTime || 0`,
i.e. the FIRST event's `startTime`, `0` when there is none. -/
def reportLcpTime (lcpEvents : List LCPEvent) : ℚ :=
  match lcpEvents with
  | [] => 0
  | lcp :: _ => lcp.startTime

/-- `LayoutShiftSourceRect` (types module); every field optional because the
report generator reads each through `|| 0` on a possibly-empty rect. -/
structure SourceRect where
  x : Option ℚ
  y : Option ℚ
  width : Option ℚ
  height : Option ℚ
  top : Option ℚ
  right : Option ℚ
  bottom : Option ℚ
  left : Option ℚ
  deriving DecidableEq, Repr

/-- A rect with every field absent (`source.previousRect || {}`). -/
def SourceRect.empty : SourceRect :=
  ⟨none, none, none, none, none, none, none, none⟩

/-- `LayoutShiftSource` (types module). -/
structure LayoutShiftSource where
  previousRect : SourceRect
  currentRect : SourceRect
  deriving DecidableEq, Repr

/-- `LayoutShift` (types module), restricted to the fields the report
generator reads; `sources` defaults to `[]` via `shift.sources || []`. -/
structure LayoutShift where
  startTime : Option ℚ
  value : Option ℚ
  sources : List LayoutShiftSource
  deriving DecidableEq, Repr

/-- The viewport-width computation of the layout-shift loop in
`generateHtml`: `viewportWidth` is initialised to `1920` INSIDE the
per-shift loop and maximised over that shift's source rects only
(`Math.max(vw, prevRect.right || 0, currRect.right || 0)`). -/
def shiftViewportWidth (shift : LayoutShift) : ℚ :=
  shift.sources.foldl
    (fun vw s => max (max vw (s.previousRect.right.getD 0)) (s.currentRect.right.getD 0))
    1920

/-- The per-shift viewport height: initialised to `1536`, maximised over the
shift's rects' bottom edges. -/
def shiftViewportHeight (shift : LayoutShift) : ℚ :=
  shift.sources.foldl
    (fun vh s => max (max vh (s.previousRect.bottom.getD 0)) (s.currentRect.bottom.getD 0))
    1536

/-- The maximum right edge over a shift's own rects (0 when none). -/
def shiftMaxRight (shift : LayoutShift) : ℚ :=
  shift.sources.foldl
    (fun vw s => max (max vw (s.previousRect.right.getD 0)) (s.currentRect.right.getD 0))
    0

/-- The maximum bottom edge over a shift's own rects (0 when none). -/
def shiftMaxBottom (shift : LayoutShift) : ℚ :=
  shift.sources.foldl
    (fun vh s => max (max vh (s.previousRect.bottom.getD 0)) (s.currentRect.bottom.getD 0))
    0

/-- The viewport the specification describes: the maximum of the default size
and every rect's observed right edge across ALL shifts of the run.  This is
the spec-side definition, kept for comparison with `shiftViewportWidth`. -/
def specRunViewportWidth (shifts : List LayoutShift) : ℚ :=
  shifts.foldl
    (fun vw shift =>
      shift.sources.foldl
        (fun v s => max (max v (s.previousRect.right.getD 0)) (s.currentRect.right.getD 0))
        vw)
    1920

/-- One entry of `sourceVisualData`: the 0–100 rescaled percentages plus the
floored raw pixel geometry. -/
structure SourceVisual where
  prevLeftPct : ℚ
  prevTopPct : ℚ
  prevWidthPct : ℚ
  prevHeightPct : ℚ
  prevX : ℤ
  prevY : ℤ
  prevWidth : ℤ
  prevHeight : ℤ
  currLeftPct : ℚ
  currTopPct : ℚ
  currWidthPct : ℚ
  currHeightPct : ℚ
  currX : ℤ
  currY : ℤ
  currWidth : ℤ
  currHeight : ℤ
  deriving DecidableEq, Repr

/-- The per-source rescaling in the layout-shift loop of `generateHtml`,
given the viewport computed for the enclosing shift. -/
def buildSourceVisual (viewportWidth viewportHeight : ℚ)
    (source : LayoutShiftSource) : SourceVisual :=
  let prevRect := source.previousRect
  let currRect := source.currentRect
  { prevLeftPct :=
      if viewportWidth > 0 then prevRect.left.getD 0 / viewportWidth * 100 else 0
    prevTopPct :=
      if viewportHeight > 0 then prevRect.top.getD 0 / viewportHeight * 100 else 0
    prevWidthPct :=
      if viewportWidth > 0 then prevRect.width.getD 0 / viewportWidth * 100 else 0
    prevHeightPct :=
      if viewportHeight > 0 then prevRect.height.getD 0 / viewportHeight * 100 else 0
    prevX := ⌊prevRect.x.getD 0⌋
    prevY := ⌊prevRect.y.getD 0⌋
    prevWidth := ⌊prevRect.width.getD 0⌋
    prevHeight := ⌊prevRect.height.getD 0⌋
    currLeftPct :=
      if viewportWidth > 0 then currRect.left.getD 0 / viewportWidth * 100 else 0
    currTopPct :=
      if viewportHeight > 0 then currRect.top.getD 0 / viewportHeight * 100 else 0
    currWidthPct :=
      if viewportWidth > 0 then currRect.width.getD 0 / viewportWidth * 100 else 0
    currHeightPct :=
      if viewportHeight > 0 then currRect.height.getD 0 / viewportHeight * 100 else 0
    currX := ⌊currRect.x.getD 0⌋
    currY := ⌊currRect.y.getD 0⌋
    currWidth := ⌊currRect.width.getD 0⌋
    currHeight := ⌊currRect.height.getD 0⌋ }

/-- A shift's `sourceVisualData`: sources with a zero-width or zero-height
current rect are skipped (`continue`), the rest rescaled against the
viewport of that same shift. -/
def shiftSourceVisuals (shift : LayoutShift) : List SourceVisual :=
  let vw := shiftViewportWidth shift
  let vh := shiftViewportHeight shift
  shift.sources.filterMap fun s =>
    if s.currentRect.width.getD 0 = 0 ∨ s.currentRect.height.getD 0 = 0 then none
    else some (buildSourceVisual vw vh s)

/-- The monotone-chain hypothesis of spec section 4.1 on the `|| 0`-read
navigation timestamps. -/
def monotoneChain (nt : NavigationTiming) : Prop :=
  nt.navigationStart.getD 0 ≤ nt.domainLookupStart.getD 0 ∧
  nt.domainLookupStart.getD 0 ≤ nt.domainLookupEnd.getD 0 ∧
  nt.domainLookupEnd.getD 0 ≤ nt.connectStart.getD 0 ∧
  nt.connectStart.getD 0 ≤ nt.connectEnd.getD 0 ∧
  nt.connectEnd.getD 0 ≤ nt.requestStart.getD 0 ∧
  nt.requestStart.getD 0 ≤ nt.responseStart.getD 0 ∧
  nt.responseStart.getD 0 ≤ nt.responseEnd.getD 0 ∧
  nt.responseEnd.getD 0 ≤ nt.domLoading.getD 0 ∧
  nt.domLoading.getD 0 ≤ nt.domInteractive.getD 0 ∧
  nt.domInteractive.getD 0 ≤ nt.domContentLoadedEventEnd.getD 0 ∧
  nt.domContentLoadedEventEnd.getD 0 ≤ nt.domComplete.getD 0

instance (nt : NavigationTiming) : Decidable (monotoneChain nt) := by
  unfold monotoneChain; infer_instance

/-! Concrete inputs used to evaluate the embedded code. -/

/-- An archive entry with no data beyond the structural defaults. -/
def baseHarEntry : HarEntry :=
  { request_url := ""
    method := "GET"
    status := 0
    transferSize := none
    content_size := 0
    mimeType := ""
    startedDateTime := none
    time := 0
    dns_start := none
    dns_end := none
    connect_start := none
    connect_end := none
    secure_start := none
    secure_end := none
    request_start := none
    request_end := none
    response_start := none
    response_end := none
    is_lcp := false }

/-- A live sample timing anchored at `t` (responseStart `t+5`, responseEnd
`t+9`, no secure connection). -/
def c1Timing (t : ℚ) : RequestTiming :=
  { startTime := t
    domainLookupStart := t
    domainLookupEnd := t
    connectStart := t
    secureConnectionStart := 0
    connectEnd := t
    requestStart := t
    responseStart := t + 5
    responseEnd := t + 9 }

def c1Sample1 : RequestData :=
  { url := "https://dup.example/a", timing := c1Timing 10, rawTimings := false }

def c1Sample2 : RequestData :=
  { url := "https://dup.example/a", timing := c1Timing 20, rawTimings := false }

def c1Entry1 : HarEntry :=
  { baseHarEntry with request_url := "https://dup.example/a", status := 200 }

def c1Entry2 : HarEntry :=
  { baseHarEntry with request_url := "https://dup.example/a", status := 201 }

/-- Navigation record for which the page-level percentages sum to 200:
connect spans 0–100 with `secureConnectionStart = 0`, everything else
instantaneous at 100. -/
def c2Nav : NavigationTiming :=
  { navigationStart := some 0
    domainLookupStart := some 0
    domainLookupEnd := some 0
    connectStart := some 0
    connectEnd := some 100
    secureConnectionStart := some 0
    requestStart := some 100
    responseStart := some 100
    responseEnd := some 100
    domLoading := some 100
    domInteractive := some 100
    domContentLoadedEventEnd := some 100
    domComplete := some 100 }

/-- A monotone-chain navigation record. -/
def c2NavW : NavigationTiming :=
  { navigationStart := some 0
    domainLookupStart := some 5
    domainLookupEnd := some 10
    connectStart := some 10
    connectEnd := some 20
    secureConnectionStart := some 15
    requestStart := some 20
    responseStart := some 50
    responseEnd := some 80
    domLoading := some 80
    domInteractive := some 120
    domContentLoadedEventEnd := some 150
    domComplete := some 200 }

/-- The end-to-end scenario entry of spec section 8: request start 100,
response start 150, response end 200, no other boundary data. -/
def c3Entry : HarEntry :=
  { baseHarEntry with
    request_url := "https://example.com/"
    request_start := some 100
    response_start := some 150
    response_end := some 200 }

def c3Input : HarFileState := .parsed (some (some [c3Entry]))

/-- A source rect reaching right edge 3840 (beyond the 1920 default). -/
def c5BigRect : SourceRect :=
  { SourceRect.empty with
    left := some 3740, right := some 3840, bottom := some 100,
    width := some 100, height := some 100 }

/-- A source rect spanning the full default viewport width. -/
def c5WideRect : SourceRect :=
  { SourceRect.empty with
    left := some 0, right := some 1920, bottom := some 100,
    width := some 1920, height := some 100 }

def c5SrcBig : LayoutShiftSource :=
  { previousRect := SourceRect.empty, currentRect := c5BigRect }

def c5SrcWide : LayoutShiftSource :=
  { previousRect := SourceRect.empty, currentRect := c5WideRect }

/-- First shift of the run: only the oversized rect. -/
def c5ShiftA : LayoutShift :=
  { startTime := some 100, value := some (1 / 100), sources := [c5SrcBig] }

/-- Second shift of the run: only the default-width rect. -/
def c5ShiftB : LayoutShift :=
  { startTime := some 200, value := some (1 / 50), sources := [c5SrcWide] }

/-- A single shift holding both rects. -/
def c5ShiftBoth : LayoutShift :=
  { startTime := some 300, value := some (1 / 100), sources := [c5SrcBig, c5SrcWide] }

/-- A live sample with a secure connection (secure start 30, connect end 40). -/
def c6Sample : RequestData :=
  { url := "https://secure.example/"
    timing :=
      { startTime := 5
        domainLookupStart := 5
        domainLookupEnd := 8
        connectStart := 10
        secureConnectionStart := 30
        connectEnd := 40
        requestStart := 45
        responseStart := 50
        responseEnd := 90 }
    rawTimings := false }

/-- The same sample without a secure connection boundary. -/
def c6Sample0 : RequestData :=
  { c6Sample with
    timing := { c6Sample.timing with secureConnectionStart := 0 } }

def c6Entry : HarEntry :=
  { baseHarEntry with request_url := "https://secure.example/" }

/-- An archive entry with a complete boundary chain: dns 5–10, connect 10–20,
secure 15–20, send 20–25, response 40–90 (total 70). -/
def c7Entry : HarEntry :=
  { baseHarEntry with
    request_url := "https://example.net/style.css"
    mimeType := "text/css"
    dns_start := some 5
    dns_end := some 10
    connect_start := some 10
    connect_end := some 20
    secure_start := some 15
    secure_end := some 20
    request_start := some 20
    request_end := some 25
    response_start := some 40
    response_end := some 90 }

def c9Entry : HarEntry :=
  { baseHarEntry with
    request_url := "https://example.org/app.js"
    mimeType := "application/javascript"
    status := 200
    response_start := some 10
    response_end := some 60 }

def c9Log : Option (Option (List HarEntry)) := some (some [c9Entry])

/-- A navigation record with responseStart 100, responseEnd 160 from
navigation start 0: download time 60, first byte at 100. -/
def c8Nav : NavigationTiming :=
  { navigationStart := some 0
    domainLookupStart := some 5
    domainLookupEnd := some 10
    connectStart := some 10
    connectEnd := some 20
    secureConnectionStart := some 15
    requestStart := some 20
    responseStart := some 100
    responseEnd := some 160
    domLoading := some 160
    domInteractive := some 170
    domContentLoadedEventEnd := some 180
    domComplete := some 200 }

/-- A two-element LCP event array with distinct events. -/
def c10Events : List LCPEvent :=
  [{ startTime := 1000, url := "https://img.example/a.png" },
   { startTime := 2500, url := "https://img.example/b.png" }]

/-! Theorems. -/

/-- C1: in `mergeEntries` the `findIndex` guard tests the sample's own
`rawTimings` flag (never set anywhere in the repository) instead of marking
archive entries, so with two archive entries sharing a URL and two live
samples for that URL, BOTH samples update the first entry (the second
overwrites the first, `response_start` ends at 25, not 15) and the second
entry is never enriched — contradicting the claimed first-wins
distinct-entry policy. -/
theorem mergeEntries_duplicate_url_updates_first_entry_twice :
    mergeEntries [c1Sample1, c1Sample2] [c1Entry1, c1Entry2] none =
      [mergeUpdate c1Entry1 c1Sample2 none, c1Entry2] ∧
    (mergeUpdate c1Entry1 c1Sample2 none).response_start = some 25 ∧
    (mergeUpdate c1Entry1 c1Sample1 none).response_start = some 15 ∧
    c1Entry2.response_start = none := by
  refine ⟨?_, by norm_num [mergeUpdate, c1Sample2, c1Timing],
    by norm_num [mergeUpdate, c1Sample1, c1Timing], rfl⟩
  norm_num [mergeEntries, mergeStep, mergePred, mergeUpdate, c1Sample1, c1Sample2,
    c1Entry1, c1Entry2, c1Timing, baseHarEntry, List.findIdx?_cons, beq_iff_eq]

/-- C3 (counterexample): on the spec's end-to-end scenario archive (request
start 100, response start 150, response end 200, nothing else), the parser's
`wait = responseStart - requestEnd` uses the absent `_request_end` as 0 and
yields `wait_time = 150`, not the claimed 50. -/
theorem parseHar_scenario_wait_time_not_50 :
    (parseHarFile c3Input).map (List.map fun r => r.timings.wait_time) =
      some [150] ∧
    ¬ ((150 : ℚ) = 50) := by
  norm_num [parseHarFile, harEntryToRequest, harEntryTimings, c3Input, c3Entry,
    baseHarEntry]

/-- C3 (amended): the scenario record has `wait_time = 150` (the absent
request-end boundary falls back to 0), `receive_time = 50`,
`total_time = 100`, `dns_time = 0` and `dns_pct = 0`. -/
theorem parseHar_scenario_record_values :
    (parseHarFile c3Input).map (List.map fun r =>
      (r.timings.wait_time, r.timings.receive_time, r.timings.total_time,
        r.timings.dns_time, r.timings.dns_pct)) =
      some [(150, 50, 100, 0, 0)] := by
  norm_num [parseHarFile, harEntryToRequest, harEntryTimings, c3Input, c3Entry,
    baseHarEntry]

/-- C4: the `if / else if` chain of the byte-size formatter tests `> 1024`
first, so the megabyte and gigabyte branches are unreachable: 2048 and 500
format as claimed, but 1572864 lands in the kilobyte branch as `1536 KB`
instead of megabyte-unit output. -/
theorem sizeBranch_kb_branch_shadows_mb :
    sizeBranch 2048 = (2, " KB") ∧
    sizeBranch 500 = (500, " B") ∧
    sizeBranch 1572864 = (1536, " KB") ∧
    formatSizeParts 1572864 = (1536, " KB") := by
  norm_num [sizeBranch, formatSizeParts]

/-- C8: on a navigation record with first byte at 100 and response end 160,
the report model's TTFB is `timing.response_time = 60` (the download time),
while `fillOutHar` itself computes TTFB as
`responseStart - navigationStart = 100`, which is what the claim states. -/
theorem reportTTFB_is_response_download_time :
    reportTTFB c8Nav = 60 ∧ harTTFB c8Nav = 100 ∧ ¬ ((60 : ℚ) = 100) := by
  norm_num [reportTTFB, harTTFB, calculateTimingPhases, c8Nav]

/-- C2 (counterexample): on `c2Nav` (connect spans the whole 100 ms load and
`secureConnectionStart` is 0) the ssl percentage double-counts the tcp
interval: the eight page-level percentages sum to 200, not at most 100. -/
theorem timingPhases_pct_sum_exceeds_100 :
    (calculateTimingPhases c2Nav).dns_pct + (calculateTimingPhases c2Nav).tcp_pct +
      (calculateTimingPhases c2Nav).ssl_pct + (calculateTimingPhases c2Nav).request_pct +
      (calculateTimingPhases c2Nav).response_pct +
      (calculateTimingPhases c2Nav).processing_pct +
      (calculateTimingPhases c2Nav).dom_content_pct +
      (calculateTimingPhases c2Nav).complete_pct = 200 ∧
    ¬ ((200 : ℚ) ≤ 100) := by
  norm_num [calculateTimingPhases, c2Nav]

/-- C2 (amended): with the ssl percentage excluded (it overlaps the tcp
phase), the page-level percentages sum to at most 100 whenever the
navigation timestamps form a monotone chain; and whenever the total load
time is 0 or negative, every percentage is exactly 0. -/
theorem timingPhases_pct_sum_le_100_without_ssl (nt : NavigationTiming) :
    (monotoneChain nt →
      (calculateTimingPhases nt).dns_pct + (calculateTimingPhases nt).tcp_pct +
        (calculateTimingPhases nt).request_pct +
        (calculateTimingPhases nt).response_pct +
        (calculateTimingPhases nt).processing_pct +
        (calculateTimingPhases nt).dom_content_pct +
        (calculateTimingPhases nt).complete_pct ≤ 100) ∧
    ((calculateTimingPhases nt).total_time ≤ 0 →
      (calculateTimingPhases nt).dns_pct = 0 ∧
      (calculateTimingPhases nt).tcp_pct = 0 ∧
      (calculateTimingPhases nt).ssl_pct = 0 ∧
      (calculateTimingPhases nt).request_pct = 0 ∧
      (calculateTimingPhases nt).response_pct = 0 ∧
      (calculateTimingPhases nt).processing_pct = 0 ∧
      (calculateTimingPhases nt).dom_content_pct = 0 ∧
      (calculateTimingPhases nt).complete_pct = 0) := by
  dsimp only [calculateTimingPhases, monotoneChain]
  set ns := nt.navigationStart.getD 0 with hns
  set dls := nt.domainLookupStart.getD 0 with hdls
  set dle := nt.domainLookupEnd.getD 0 with hdle
  set cs := nt.connectStart.getD 0 with hcs
  set ce := nt.connectEnd.getD 0 with hce
  set rqs := nt.requestStart.getD 0 with hrqs
  set rps := nt.responseStart.getD 0 with hrps
  set rpe := nt.responseEnd.getD 0 with hrpe
  set dl := nt.domLoading.getD 0 with hdl
  set di := nt.domInteractive.getD 0 with hdi
  set dcl := nt.domContentLoadedEventEnd.getD 0 with hdcl
  set dc := nt.domComplete.getD 0 with hdc
  constructor
  · rintro ⟨h1, h2, h3, h4, h5, h6, h7, h8, h9, h10, h11⟩
    by_cases ht : dc - ns > 0
    · rw [if_pos ht, if_pos ht, if_pos ht, if_pos ht, if_pos ht, if_pos ht, if_pos ht]
      have key : (dle - dls) + (ce - cs) + (rps - rqs) + (rpe - rps) + (di - dl) +
          (dcl - di) + (dc - dcl) ≤ dc - ns := by linarith
      have step : (dle - dls) / (dc - ns) * 100 + (ce - cs) / (dc - ns) * 100 +
          (rps - rqs) / (dc - ns) * 100 + (rpe - rps) / (dc - ns) * 100 +
          (di - dl) / (dc - ns) * 100 + (dcl - di) / (dc - ns) * 100 +
          (dc - dcl) / (dc - ns) * 100 =
          ((dle - dls) + (ce - cs) + (rps - rqs) + (rpe - rps) + (di - dl) +
            (dcl - di) + (dc - dcl)) / (dc - ns) * 100 := by
        ring
      rw [step, div_mul_eq_mul_div, div_le_iff₀ ht]
      linarith
    · rw [if_neg ht, if_neg ht, if_neg ht, if_neg ht, if_neg ht, if_neg ht, if_neg ht]
      norm_num
  · intro ht
    have ht' : ¬ (dc - ns > 0) := not_lt.mpr ht
    rw [if_neg ht', if_neg ht', if_neg ht', if_neg ht', if_neg ht', if_neg ht',
      if_neg ht', if_neg ht']
    exact ⟨rfl, rfl, rfl, rfl, rfl, rfl, rfl, rfl⟩

/-- C2 (witness): the amended theorem applied to a concrete monotone record
and to a concrete record with nonpositive total. -/
theorem timingPhases_pct_sum_le_100_without_ssl_witness :
    (calculateTimingPhases c2NavW).dns_pct + (calculateTimingPhases c2NavW).tcp_pct +
      (calculateTimingPhases c2NavW).request_pct +
      (calculateTimingPhases c2NavW).response_pct +
      (calculateTimingPhases c2NavW).processing_pct +
      (calculateTimingPhases c2NavW).dom_content_pct +
      (calculateTimingPhases c2NavW).complete_pct ≤ 100 :=
  (timingPhases_pct_sum_le_100_without_ssl c2NavW).1
    (by norm_num [monotoneChain, c2NavW])

/-- C5 (counterexample): the viewport is recomputed from scratch for every
shift, so a 3840-wide rect in the run's first shift does not widen the
viewport used for the second shift: the second shift scales against 1920
while the claimed run-wide viewport is 3840, and the resulting width
percentage is 100 instead of the 50 the run-wide viewport would give. -/
theorem shiftViewport_ignores_other_shifts :
    shiftViewportWidth c5ShiftB = 1920 ∧
    specRunViewportWidth [c5ShiftA, c5ShiftB] = 3840 ∧
    shiftViewportWidth c5ShiftB ≠ specRunViewportWidth [c5ShiftA, c5ShiftB] ∧
    (buildSourceVisual (shiftViewportWidth c5ShiftB) (shiftViewportHeight c5ShiftB)
      c5SrcWide).currWidthPct = 100 ∧
    (buildSourceVisual (specRunViewportWidth [c5ShiftA, c5ShiftB]) 1536
      c5SrcWide).currWidthPct = 50 := by
  norm_num [shiftViewportWidth, shiftViewportHeight, specRunViewportWidth,
    buildSourceVisual, c5ShiftA, c5ShiftB, c5SrcBig, c5SrcWide, c5BigRect,
    c5WideRect, SourceRect.empty, max_def]

/-- Folding a binary max over a list distributes over a max in the initial
accumulator. -/
theorem foldl_max_shift (f g : LayoutShiftSource → ℚ) :
    ∀ (xs : List LayoutShiftSource) (a b : ℚ),
      xs.foldl (fun v s => max (max v (f s)) (g s)) (max a b) =
        max a (xs.foldl (fun v s => max (max v (f s)) (g s)) b)
  | [], _, _ => rfl
  | x :: xs, a, b => by
      dsimp only [List.foldl]
      rw [max_assoc a b (f x), max_assoc a (max b (f x)) (g x)]
      exact foldl_max_shift f g xs a (max (max b (f x)) (g x))

/-- Folding a binary max over a list from a nonnegative start equals the max
of the start and the fold from 0. -/
theorem foldl_max_init (f g : LayoutShiftSource → ℚ) (xs : List LayoutShiftSource)
    (a : ℚ) (h : 0 ≤ a) :
    xs.foldl (fun v s => max (max v (f s)) (g s)) a =
      max a (xs.foldl (fun v s => max (max v (f s)) (g s)) 0) := by
  have hmax := foldl_max_shift f g xs a 0
  rwa [max_eq_left h] at hmax

/-- C5 (amended): the viewport used to rescale a shift's source rectangles is
the maximum of the default size (1920 × 1536) and the rectangles' observed
right/bottom edges across the sources of that same shift only; a rectangle
with right edge 1920 on the default viewport still yields a 100% left+width
bound, and a rectangle exceeding the default expands the viewport for every
source within its own shift (here to 3840, halving the wide rect's width
percentage). -/
theorem shiftViewport_per_shift_maximum :
    (∀ shift : LayoutShift,
      shiftViewportWidth shift = max 1920 (shiftMaxRight shift) ∧
      shiftViewportHeight shift = max 1536 (shiftMaxBottom shift)) ∧
    (buildSourceVisual (shiftViewportWidth c5ShiftB) (shiftViewportHeight c5ShiftB)
        c5SrcWide).currLeftPct +
      (buildSourceVisual (shiftViewportWidth c5ShiftB) (shiftViewportHeight c5ShiftB)
        c5SrcWide).currWidthPct = 100 ∧
    shiftViewportWidth c5ShiftBoth = 3840 ∧
    (buildSourceVisual (shiftViewportWidth c5ShiftBoth) (shiftViewportHeight c5ShiftBoth)
        c5SrcWide).currWidthPct = 50 := by
  refine ⟨fun shift => ⟨?_, ?_⟩, ?_, ?_, ?_⟩
  · exact foldl_max_init (fun s => s.previousRect.right.getD 0)
      (fun s => s.currentRect.right.getD 0) shift.sources 1920 (by norm_num)
  · exact foldl_max_init (fun s => s.previousRect.bottom.getD 0)
      (fun s => s.currentRect.bottom.getD 0) shift.sources 1536 (by norm_num)
  · norm_num [shiftViewportWidth, shiftViewportHeight, buildSourceVisual,
      c5ShiftB, c5SrcWide, c5WideRect, SourceRect.empty, max_def]
  · norm_num [shiftViewportWidth, c5ShiftBoth, c5SrcBig, c5SrcWide, c5BigRect,
      c5WideRect, SourceRect.empty, max_def]
  · norm_num [shiftViewportWidth, shiftViewportHeight, buildSourceVisual,
      c5ShiftBoth, c5SrcBig, c5SrcWide, c5BigRect, c5WideRect,
      SourceRect.empty, max_def]

/-- C5 (witness): the per-shift maximum formula applied to the run's first
concrete shift. -/
theorem shiftViewport_per_shift_maximum_witness :
    shiftViewportWidth c5ShiftA = max 1920 (shiftMaxRight c5ShiftA) :=
  (shiftViewport_per_shift_maximum.1 c5ShiftA).1

/-- C6: in the merge update, a secure-connection-start boundary greater than
0 redefines the enriched connect-end as that boundary; the secure-start /
secure-end fields carry the boundary pair exactly when the boundary exists
(is nonzero, JavaScript truthiness), and are both the sentinel -1 when the
boundary is 0. -/
theorem mergeUpdate_secure_boundary_handling (e : HarEntry) (r : RequestData)
    (l : Option String) :
    (r.timing.secureConnectionStart > 0 →
      (mergeUpdate e r l).connect_end = some r.timing.secureConnectionStart) ∧
    (r.timing.secureConnectionStart ≠ 0 →
      (mergeUpdate e r l).secure_start = some r.timing.secureConnectionStart ∧
      (mergeUpdate e r l).secure_end = some r.timing.connectEnd) ∧
    (r.timing.secureConnectionStart = 0 →
      (mergeUpdate e r l).secure_start = some (-1) ∧
      (mergeUpdate e r l).secure_end = some (-1)) := by
  refine ⟨fun h => ?_, fun h => ⟨?_, ?_⟩, fun h => ⟨?_, ?_⟩⟩ <;>
    simp [mergeUpdate, h]

/-- C6 (witness): the secure handling evaluated on a sample with secure
start 30 / connect end 40, and on the same sample with the boundary absent. -/
theorem mergeUpdate_secure_boundary_handling_witness :
    (mergeUpdate c6Entry c6Sample none).connect_end = some 30 ∧
    (mergeUpdate c6Entry c6Sample0 none).secure_start = some (-1) ∧
    (mergeUpdate c6Entry c6Sample0 none).secure_end = some (-1) :=
  ⟨(mergeUpdate_secure_boundary_handling c6Entry c6Sample none).1
      (by norm_num [c6Sample]),
    (mergeUpdate_secure_boundary_handling c6Entry c6Sample0 none).2.2
      (by norm_num [c6Sample0, c6Sample])⟩

/-- C7: in the per-request computation of `parseHarFile`, whenever the total
is positive the send/wait/receive percentages are always
`duration / total * 100`, the dns/connect/ssl percentages are that formula
when their own duration is positive and 0 when it is nonpositive; and when
the total is 0 or negative every percentage is 0. -/
theorem harEntryTimings_pct_rules (e : HarEntry) :
    ((harEntryTimings e).total_time > 0 →
      (harEntryTimings e).send_pct =
        (harEntryTimings e).send_time / (harEntryTimings e).total_time * 100 ∧
      (harEntryTimings e).wait_pct =
        (harEntryTimings e).wait_time / (harEntryTimings e).total_time * 100 ∧
      (harEntryTimings e).receive_pct =
        (harEntryTimings e).receive_time / (harEntryTimings e).total_time * 100 ∧
      ((harEntryTimings e).dns_time > 0 →
        (harEntryTimings e).dns_pct =
          (harEntryTimings e).dns_time / (harEntryTimings e).total_time * 100) ∧
      ((harEntryTimings e).dns_time ≤ 0 → (harEntryTimings e).dns_pct = 0) ∧
      ((harEntryTimings e).connect_time > 0 →
        (harEntryTimings e).connect_pct =
          (harEntryTimings e).connect_time / (harEntryTimings e).total_time * 100) ∧
      ((harEntryTimings e).connect_time ≤ 0 → (harEntryTimings e).connect_pct = 0) ∧
      ((harEntryTimings e).ssl_time > 0 →
        (harEntryTimings e).ssl_pct =
          (harEntryTimings e).ssl_time / (harEntryTimings e).total_time * 100) ∧
      ((harEntryTimings e).ssl_time ≤ 0 → (harEntryTimings e).ssl_pct = 0)) ∧
    ((harEntryTimings e).total_time ≤ 0 →
      (harEntryTimings e).dns_pct = 0 ∧ (harEntryTimings e).connect_pct = 0 ∧
      (harEntryTimings e).ssl_pct = 0 ∧ (harEntryTimings e).send_pct = 0 ∧
      (harEntryTimings e).wait_pct = 0 ∧ (harEntryTimings e).receive_pct = 0) := by
  dsimp only [harEntryTimings]
  constructor
  · intro htot
    refine ⟨if_pos htot, if_pos htot, if_pos htot,
      fun hd => if_pos ⟨htot, hd⟩,
      fun hd => if_neg (fun hx => absurd hx.2 (not_lt.mpr hd)),
      fun hc => if_pos ⟨htot, hc⟩,
      fun hc => if_neg (fun hx => absurd hx.2 (not_lt.mpr hc)),
      fun hs => if_pos ⟨htot, hs⟩,
      fun hs => if_neg (fun hx => absurd hx.2 (not_lt.mpr hs))⟩
  · intro htot
    exact ⟨if_neg (fun hx => absurd hx.1 (not_lt.mpr htot)),
      if_neg (fun hx => absurd hx.1 (not_lt.mpr htot)),
      if_neg (fun hx => absurd hx.1 (not_lt.mpr htot)),
      if_neg (not_lt.mpr htot), if_neg (not_lt.mpr htot),
      if_neg (not_lt.mpr htot)⟩

/-- C7 (witness): the percentage rules evaluated on an entry with a full
boundary chain (total 70, wait 15). -/
theorem harEntryTimings_pct_rules_witness :
    (harEntryTimings c7Entry).wait_pct =
      (harEntryTimings c7Entry).wait_time / (harEntryTimings c7Entry).total_time * 100 :=
  (((harEntryTimings_pct_rules c7Entry).1
      (by norm_num [harEntryTimings, c7Entry, baseHarEntry])).2).1

/-- C9: the archive parser returns `none` — and, being a total function,
never throws — exactly when the file is absent, the contents are unparsable,
or the effective entry list is empty; on a nonempty entry list it returns
one record per entry. -/
theorem parseHarFile_error_handling :
    parseHarFile .absent = none ∧
    parseHarFile .unparsable = none ∧
    (∀ log : Option (Option (List HarEntry)),
      (parseHarFile (.parsed log) = none ↔ (log.getD none).getD [] = [])) ∧
    (∀ log : Option (Option (List HarEntry)),
      (log.getD none).getD [] ≠ [] →
        (parseHarFile (.parsed log)).map List.length =
          some ((log.getD none).getD []).length) := by
  refine ⟨rfl, rfl, fun log => ?_, fun log hne => ?_⟩
  · dsimp only [parseHarFile]
    by_cases he : ((log.getD none).getD []).isEmpty
    · rw [if_pos he]
      simp only [List.isEmpty_iff] at he
      simp [he]
    · rw [if_neg he]
      simp only [List.isEmpty_iff] at he
      simp [he]
  · dsimp only [parseHarFile]
    rw [if_neg (by simpa [List.isEmpty_iff] using hne)]
    simp

/-- C9 (witness): the parser applied to a parsed log holding one entry
returns a one-element record list. -/
theorem parseHarFile_error_handling_witness :
    (parseHarFile (.parsed c9Log)).map List.length =
      some ((c9Log.getD none).getD []).length :=
  parseHarFile_error_handling.2.2.2 c9Log (by simp [c9Log])

/-- C10: with at least two captured LCP events, the report's LCP metric is
the FIRST event's `startTime` while the url used to flag the archive record
comes from the LAST event; the two positions (head and index `length - 1`)
are distinct. -/
theorem lcp_flag_from_last_report_from_first (events : List LCPEvent)
    (h : 2 ≤ events.length) :
    (∃ first, events.head? = some first ∧
      reportLcpTime events = first.startTime) ∧
    (∃ last, events.getLast? = some last ∧
      lcpFlagURL events = (if last.url == "" then none else some last.url)) ∧
    events.length - 1 ≠ 0 := by
  match events, h with
  | e :: es, h =>
    refine ⟨⟨e, rfl, rfl⟩, ?_, ?_⟩
    · have hne : e :: es ≠ ([] : List LCPEvent) := by simp
      refine ⟨(e :: es).getLast hne, List.getLast?_eq_getLast _ hne, ?_⟩
      unfold lcpFlagURL
      rw [List.getLast?_eq_getLast _ hne]
    · simp only [List.length_cons] at h ⊢
      omega

/-- C10 (witness): the head/last split applied to a concrete two-event
array. -/
theorem lcp_flag_from_last_report_from_first_witness :
    (∃ first, c10Events.head? = some first ∧
      reportLcpTime c10Events = first.startTime) ∧
    (∃ last, c10Events.getLast? = some last ∧
      lcpFlagURL c10Events = (if last.url == "" then none else some last.url)) ∧
    c10Events.length - 1 ≠ 0 :=
  lcp_flag_from_last_report_from_first c10Events (by norm_num [c10Events])

end Telescope
